import Mathlib

/-!
Verification of the chat-command core of the Todo-Website backend
(`backend/app/api/chat.py` together with the models in
`backend/app/models/`).  The Python functions are embedded shallowly:
the database session becomes an explicit list of rows, each handler
becomes a pure Lean function from its inputs and the current store to a
result and the new store, and the Python regular expressions used by the
handlers are embedded as explicit backtracking matchers with the same
leftmost-match, greedy/lazy semantics.

Modelling conventions, stated once:
* `datetime` columns are modelled as `Nat` tick counts (`created_at`);
  only their relative order is ever used by the code under study.
* SQL `ilike '%x%'` is modelled as case-insensitive substring
  containment (the extracted phrases never contain `%` or `_`).
* `select(...).order_by(created_at.desc()).first()` is modelled by a
  stable descending insertion sort followed by `head?`; SQL leaves the
  order of equal keys unspecified, the stable sort is one refinement.
* A `select` with no `order_by` returns rows in primary-key/insertion
  order, modelled as the order of the Lean list.
* Python `str.lower` is modelled with `Char.toLower` (they agree on the
  ASCII alphabet used by every keyword and pattern in the code).
-/

/-! ### Python string primitives -/

/-- Characters matched by Python's regex class `\s` (ASCII range). -/
def isPySpace (c : Char) : Bool :=
  c == ' ' || c == '\t' || c == '\n' || c == '\r' || c == '\x0b' || c == '\x0c'

/-- Characters matched by Python's regex `.` without `re.DOTALL`:
anything but a newline. -/
def isDot (c : Char) : Bool := c != '\n'

/-- Python `str.lower()`. -/
def strLower (s : String) : String := String.mk (s.data.map Char.toLower)

/-- `pat` is a leading segment of `s` (both as character lists). -/
def startsWithChars : List Char → List Char → Bool
  | [], _ => true
  | _ :: _, [] => false
  | a :: as, b :: bs => a == b && startsWithChars as bs

/-- `needle` occurs contiguously somewhere in `hay`. -/
def containsSeq (needle : List Char) : List Char → Bool
  | [] => needle.isEmpty
  | c :: rest => startsWithChars needle (c :: rest) || containsSeq needle rest

/-- Python's `needle in hay` on strings: contiguous substring test. -/
def strContains (hay needle : String) : Bool := containsSeq needle.data hay.data

/-- Python `str.strip()`: drop leading and trailing whitespace. -/
def pyStrip (s : String) : String :=
  String.mk (((s.data.dropWhile isPySpace).reverse.dropWhile isPySpace).reverse)

/-- Case-insensitive containment: the model of SQL `ilike '%needle%'`
and of the handlers' `needle.lower() in title.lower()` checks. -/
def containsCI (hay needle : String) : Bool :=
  strContains (strLower hay) (strLower needle)

/-! ### Backtracking pieces of the embedded regular expressions

The four patterns in `chat.py` are built from literal alternations,
`\s+`, `\s*`, optional groups, lazy `.+?`, greedy `.+` and `$`.  Each
combinator below reproduces the backtracking order Python uses: greedy
pieces try the longest extent first, lazy pieces the shortest, optional
groups try the present branch first, alternations try left to right,
and the overall search tries start positions left to right. -/

/-- Length of the leading run of `\s` characters. -/
def spaceRun (s : List Char) : Nat := (s.takeWhile isPySpace).length

/-- Try `f n, f (n-1), ..., f 1` and return the first `some`. -/
def firstSomeDesc (f : Nat → Option α) : Nat → Option α
  | 0 => none
  | j + 1 =>
    match f (j + 1) with
    | some a => some a
    | none => firstSomeDesc f j

/-- Try `f n, f (n-1), ..., f 0` and return the first `some`. -/
def firstSomeDesc0 (f : Nat → Option α) : Nat → Option α
  | 0 => f 0
  | j + 1 =>
    match f (j + 1) with
    | some a => some a
    | none => firstSomeDesc0 f j

/-- Greedy `\s+` followed by continuation `k`: consume `j ≥ 1` leading
whitespace characters, longest first. -/
def spacePlusGreedy (s : List Char) (k : List Char → Option α) : Option α :=
  firstSomeDesc (fun j => k (s.drop j)) (spaceRun s)

/-- Greedy `\s*` followed by continuation `k`: consume `j ≥ 0` leading
whitespace characters, longest first. -/
def spaceStarGreedy (s : List Char) (k : List Char → Option α) : Option α :=
  firstSomeDesc0 (fun j => k (s.drop j)) (spaceRun s)

/-- Greedy `(.+)` with nothing after it: the maximal nonempty run of
non-newline characters at the front. -/
def dotPlus (s : List Char) : Option (List Char) :=
  match s with
  | [] => none
  | c :: _ => if isDot c then some (s.takeWhile isDot) else none

/-- Lazy capturing `(.+?)` followed by an acceptance test on the rest:
grow the captured prefix one non-newline character at a time and stop
at the first length whose remainder is accepted. -/
def lazyDotCapture (accept : List Char → Bool) : List Char → List Char → Option (List Char)
  | _, [] => none
  | pre, c :: rest =>
    if isDot c then
      let pre2 := pre ++ [c]
      if accept rest then some pre2 else lazyDotCapture accept pre2 rest
    else none

/-- Lazy non-capturing `.+?` followed by a continuation producing the
final capture: shortest successful extension wins. -/
def lazyDotThen (k : List Char → Option α) : List Char → Option α
  | [] => none
  | c :: rest =>
    if isDot c then
      match k rest with
      | some a => some a
      | none => lazyDotThen k rest
    else none

/-- Python `$` (no `re.MULTILINE`): end of string, or just before one
final newline. -/
def atDollar (s : List Char) : Bool := s == [] || s == ['\n']

/-- `\s+to\s+(.+)` with a greedy final capture. -/
def matchToCapture (s : List Char) : Option (List Char) :=
  spacePlusGreedy s (fun r =>
    if startsWithChars "to".data r then spacePlusGreedy (r.drop 2) dotPlus else none)

/-- `\s+to\s+.+` as a plain acceptance test. -/
def matchToSuffix (s : List Char) : Bool := (matchToCapture s).isSome

/-- `\s+as\s+(?:done|completed|finished)` as an acceptance test. -/
def matchAsDoneSuffix (s : List Char) : Bool :=
  (spacePlusGreedy s (fun r =>
    if startsWithChars "as".data r then
      spacePlusGreedy (r.drop 2) (fun r2 =>
        if ["done", "completed", "finished"].any (fun w => startsWithChars w.data r2) then
          some ()
        else none)
    else none)).isSome

/-- Leftmost-position regex search: try the position matcher at each
start position, left to right. -/
def searchFrom (tryAt : List Char → Option α) : List Char → Option α
  | [] => none
  | c :: rest =>
    match tryAt (c :: rest) with
    | some a => some a
    | none => searchFrom tryAt rest

/-- At one start position, try each keyword of the alternation in order
and hand the rest of the input to the tail matcher. -/
def tryKeywordsAt (kws : List String) (tail : List Char → Option α) (s : List Char) :
    Option α :=
  match kws with
  | [] => none
  | w :: ws =>
    if startsWithChars w.data s then
      match tail (s.drop w.data.length) with
      | some a => some a
      | none => tryKeywordsAt ws tail s
    else tryKeywordsAt ws tail s

/-! ### The four extraction regexes of `chat.py`

Each `...Extract` function embeds one `re.search(pattern,
message.lower())` call and returns the text of capture group 1. -/

/-- Tail alternation `(?:\s+to\s+.+|$)` of the update-target pattern. -/
def acceptUpdateRest (t : List Char) : Bool := matchToSuffix t || atDollar t

/-- After an update keyword: `\s+(?:the\s+)?(.+?)(?:\s+to\s+.+|$)`. -/
def updateTargetTail (s : List Char) : Option (List Char) :=
  spacePlusGreedy s (fun r =>
    match (if startsWithChars "the".data r then
             spacePlusGreedy (r.drop 3) (lazyDotCapture acceptUpdateRest [])
           else none) with
    | some g => some g
    | none => lazyDotCapture acceptUpdateRest [] r)

/-- `chat.py` line 348: group 1 of
`(?:update|change|modify|edit)\s+(?:the\s+)?(.+?)(?:\s+to\s+.+|$)`
searched in the lower-cased message. -/
def updateTargetExtract (message : String) : Option (List Char) :=
  searchFrom (tryKeywordsAt ["update", "change", "modify", "edit"] updateTargetTail)
    (strLower message).data

/-- After an update keyword: `\s+.+?\s+to\s+(.+)`. -/
def updateNewTitleTail (s : List Char) : Option (List Char) :=
  spacePlusGreedy s (lazyDotThen matchToCapture)

/-- `chat.py` line 395: group 1 of
`(?:update|change|modify|edit)\s+.+?\s+to\s+(.+)` searched in the
lower-cased message. -/
def updateNewTitleExtract (message : String) : Option (List Char) :=
  searchFrom (tryKeywordsAt ["update", "change", "modify", "edit"] updateNewTitleTail)
    (strLower message).data

/-- Tail alternation `(?:\s+as\s+(?:done|completed|finished)|$)` of the
complete-target pattern. -/
def acceptCompleteRest (t : List Char) : Bool := matchAsDoneSuffix t || atDollar t

/-- `\s*(.+?)(?:\s+as\s+(?:done|completed|finished)|$)`. -/
def completeRest3 (r : List Char) : Option (List Char) :=
  spaceStarGreedy r (lazyDotCapture acceptCompleteRest [])

/-- `(?:done|completed|finished)?` then the rest of the pattern. -/
def completeRest2 (r : List Char) : Option (List Char) :=
  match tryKeywordsAt ["done", "completed", "finished"] completeRest3 r with
  | some g => some g
  | none => completeRest3 r

/-- `(?:as\s+)?` then the rest of the pattern. -/
def completeRest1 (r : List Char) : Option (List Char) :=
  match (if startsWithChars "as".data r then spacePlusGreedy (r.drop 2) completeRest2
         else none) with
  | some g => some g
  | none => completeRest2 r

/-- After a complete keyword:
`\s+(?:as\s+)?(?:done|completed|finished)?\s*(.+?)(?:\s+as\s+(?:done|completed|finished)|$)`. -/
def completeTargetTail (s : List Char) : Option (List Char) :=
  spacePlusGreedy s completeRest1

/-- `chat.py` line 432: group 1 of the complete-target pattern searched
in the lower-cased message. -/
def completeTargetExtract (message : String) : Option (List Char) :=
  searchFrom (tryKeywordsAt ["complete", "done", "finish", "mark"] completeTargetTail)
    (strLower message).data

/-- After a delete keyword: `\s+(?:the\s+)?(.+)`. -/
def deleteTargetTail (s : List Char) : Option (List Char) :=
  spacePlusGreedy s (fun r =>
    match (if startsWithChars "the".data r then spacePlusGreedy (r.drop 3) dotPlus
           else none) with
    | some g => some g
    | none => dotPlus r)

/-- `chat.py` line 543: group 1 of
`(?:delete|remove|cancel)\s+(?:the\s+)?(.+)` searched in the
lower-cased message. -/
def deleteTargetExtract (message : String) : Option (List Char) :=
  searchFrom (tryKeywordsAt ["delete", "remove", "cancel"] deleteTargetTail)
    (strLower message).data

/-! ### Data model (`backend/app/models/database.py`) -/

/-- Row of the `todo` table.  The optional `priority`, `due_date`,
`category` and `recurring_rule` columns are never read or written by
the chat handlers and are omitted. -/
structure Todo where
  id : Nat
  title : String
  description : String
  completed : Bool
  user_id : Nat
  created_at : Nat
deriving Repr, DecidableEq

/-- The transient result dictionary every command handler returns:
`{"response": ..., "intent": ..., "processed": ...}`. -/
structure CmdResult where
  response : String
  intent : String
  processed : Bool
deriving Repr, DecidableEq

/-- `select(Todo).where(Todo.user_id == uid)` — the owner's rows. -/
def ownerTodos (uid : Nat) (st : List Todo) : List Todo :=
  st.filter (fun t => t.user_id == uid)

/-- The rows of every other owner (used to state the scoping claims). -/
def othersTodos (uid : Nat) (st : List Todo) : List Todo :=
  st.filter (fun t => !(t.user_id == uid))

/-- Stable insertion into a list sorted by `created_at` descending. -/
def insertDesc (t : Todo) : List Todo → List Todo
  | [] => [t]
  | x :: xs => if t.created_at ≤ x.created_at then x :: insertDesc t xs else t :: x :: xs

/-- Stable sort by `created_at` descending: the model of
`.order_by(Todo.created_at.desc())`. -/
def sortNewestFirst (l : List Todo) : List Todo := l.foldr insertDesc []

/-- `select(Todo).where(p).order_by(created_at.desc()).first()`. -/
def firstNewest (p : Todo → Bool) (st : List Todo) : Option Todo :=
  (sortNewestFirst (st.filter p)).head?

/-- SQLAlchemy row update through a fetched object: the row with the
matching primary key is overwritten (primary keys are unique). -/
def replaceById (st : List Todo) (i : Nat) (t2 : Todo) : List Todo :=
  st.map (fun t => if t.id == i then t2 else t)

/-- `db_session.delete(todo)`: the row with the matching primary key is
removed. -/
def removeById (st : List Todo) (i : Nat) : List Todo :=
  st.filter (fun t => !(t.id == i))

/-- Primary-key uniqueness of the `todo` table. -/
def nodupIds (st : List Todo) : Prop := (st.map (fun t => t.id)).Nodup

/-! ### Command handlers (`chat.py` lines 298-640)

Every handler takes the raw message, the invoking user's id and the
todo table, and returns the result dictionary together with the table
after any commit.  The modelled store failures never occur in the pure
embedding, so the `except Exception` arms are unreachable except in
`process_create_todo_command`, where the `try` body itself raises. -/

/-- `chat.py` lines 298-336, `process_create_todo_command`.  Line 307
passes the bound-method object `message.lower` (the call parentheses
are missing) as the string argument of `re.search`, which raises
`TypeError("expected string or bytes-like object, got
'builtin_function_or_method'")` on every invocation; the
`except Exception` handler at line 331 turns that into the apology
reply, so the title extraction and the `TodoService.create_todo` insert
below line 307 are dead code and no todo is ever inserted. -/
def process_create_todo_command (message : String) (user_id : Nat) (st : List Todo) :
    CmdResult × List Todo :=
  ({ response := "Sorry, I couldn't create that task: expected string or bytes-like object, got 'builtin_function_or_method'"
   , intent := "create_todo"
   , processed := false }, st)

/-- Lines 394-401 of `process_update_todo_command`: the row after the
mutation — new title when a "... to <new title>" clause matched,
otherwise the completed flag toggled. -/
def newTodoForUpdate (message : String) (todo : Todo) : Todo :=
  match updateNewTitleExtract message with
  | some nt => { todo with title := pyStrip (String.mk nt) }
  | none => { todo with completed := !todo.completed }

/-- The mutation-and-reply tail of `process_update_todo_command`
(lines 394-415), applied once a target todo has been resolved. -/
def applyUpdate (message : String) (todo : Todo) (st : List Todo) :
    CmdResult × List Todo :=
  let todo2 := newTodoForUpdate message todo
  let status_text := if todo2.completed then "completed" else "marked incomplete"
  ({ response := "I've updated the task '" ++ todo2.title ++ "' (" ++ status_text ++ ")."
   , intent := "update_todo"
   , processed := true }, replaceById st todo.id todo2)

/-- `chat.py` lines 338-421, `process_update_todo_command`. -/
def process_update_todo_command (message : String) (user_id : Nat) (st : List Todo) :
    CmdResult × List Todo :=
  match updateTargetExtract message with
  | none =>
    ({ response := "I couldn't identify which task to update. Please specify the task by title."
     , intent := "update_todo", processed := false }, st)
  | some g =>
    let task_title := pyStrip (String.mk g)
    match firstNewest (fun t => t.user_id == user_id && containsCI t.title task_title) st with
    | some todo => applyUpdate message todo st
    | none =>
      let all_todos := ownerTodos user_id st
      if all_todos.isEmpty then
        ({ response := "You don't have any tasks to update."
         , intent := "update_todo", processed := false }, st)
      else
        match (all_todos.filter
            (fun t => strContains (strLower t.title) (strLower task_title))).head? with
        | some todo => applyUpdate message todo st
        | none =>
          ({ response := "I couldn't find a task containing '" ++ task_title ++
               "'. Here are your tasks: " ++
               String.intercalate ", "
                 ((all_todos.take 5).map (fun t => "'" ++ t.title ++ "'"))
           , intent := "update_todo", processed := false }, st)

/-- The mutation-and-reply tail of `process_complete_todo_command`
(lines 516-526): set `completed` and report the title. -/
def applyComplete (todo : Todo) (st : List Todo) : CmdResult × List Todo :=
  ({ response := "I've marked the task '" ++ todo.title ++ "' as completed."
   , intent := "complete_todo"
   , processed := true }, replaceById st todo.id { todo with completed := true })

/-- `chat.py` lines 423-532, `process_complete_todo_command`. -/
def process_complete_todo_command (message : String) (user_id : Nat) (st : List Todo) :
    CmdResult × List Todo :=
  match completeTargetExtract message with
  | none =>
    if ["complete", "done", "finish"].any (fun w => strContains (strLower message) w) then
      match firstNewest (fun t => t.user_id == user_id && !t.completed) st with
      | some todo => applyComplete todo st
      | none =>
        ({ response := "You don't have any incomplete tasks to complete."
         , intent := "complete_todo", processed := false }, st)
    else
      ({ response := "I couldn't identify which task to complete. Please specify the task by title."
       , intent := "complete_todo", processed := false }, st)
  | some g =>
    let task_title := strLower (pyStrip (String.mk g))
    match firstNewest
        (fun t => t.user_id == user_id && containsCI t.title task_title && !t.completed) st with
    | some todo => applyComplete todo st
    | none =>
      let all_todos := ownerTodos user_id st
      if all_todos.isEmpty then
        ({ response := "You don't have any tasks to complete."
         , intent := "complete_todo", processed := false }, st)
      else
        match (all_todos.filter
            (fun t => strContains (strLower t.title) task_title && !t.completed)).head? with
        | some todo => applyComplete todo st
        | none =>
          let incomplete_todos := all_todos.filter (fun t => !t.completed)
          if !incomplete_todos.isEmpty then
            ({ response := "I couldn't find an incomplete task containing '" ++
                 pyStrip (String.mk g) ++ "'. Here are your incomplete tasks: " ++
                 String.intercalate ", "
                   ((incomplete_todos.take 5).map (fun t => "'" ++ t.title ++ "'"))
             , intent := "complete_todo", processed := false }, st)
          else
            ({ response := "All your tasks are already completed."
             , intent := "complete_todo", processed := false }, st)

/-- `chat.py` lines 534-603, `process_delete_todo_command`. -/
def process_delete_todo_command (message : String) (user_id : Nat) (st : List Todo) :
    CmdResult × List Todo :=
  match deleteTargetExtract message with
  | none =>
    ({ response := "I couldn't identify which task to delete. Please specify the task by title."
     , intent := "delete_todo", processed := false }, st)
  | some g =>
    let task_title := pyStrip (String.mk g)
    match firstNewest (fun t => t.user_id == user_id && containsCI t.title task_title) st with
    | some todo =>
      ({ response := "I've deleted the task '" ++ todo.title ++ "'."
       , intent := "delete_todo", processed := true }, removeById st todo.id)
    | none =>
      let all_todos := ownerTodos user_id st
      if all_todos.isEmpty then
        ({ response := "You don't have any tasks to delete."
         , intent := "delete_todo", processed := false }, st)
      else
        match (all_todos.filter
            (fun t => strContains (strLower t.title) (strLower task_title))).head? with
        | some todo =>
          ({ response := "I've deleted the task '" ++ todo.title ++ "'."
           , intent := "delete_todo", processed := true }, removeById st todo.id)
        | none =>
          ({ response := "I couldn't find a task containing '" ++ task_title ++
               "'. Here are your tasks: " ++
               String.intercalate ", "
                 ((all_todos.take 5).map (fun t => "'" ++ t.title ++ "'"))
           , intent := "delete_todo", processed := false }, st)

/-- `chat.py` lines 605-640, `process_list_todos_command`. -/
def process_list_todos_command (message : String) (user_id : Nat) (st : List Todo) :
    CmdResult × List Todo :=
  let todos := sortNewestFirst (ownerTodos user_id st)
  if todos.isEmpty then
    ({ response := "You don't have any tasks yet. Try adding one!"
     , intent := "list_todos", processed := true }, st)
  else
    let todo_titles := (todos.take 5).map (fun t => "- " ++ t.title)
    let additional_count : Int := (todos.length : Int) - 5
    let base := "Here are your tasks:\n" ++ String.intercalate "\n" todo_titles
    let response :=
      if additional_count > 0 then
        base ++ "\n... and " ++ toString additional_count ++ " more"
      else base
    ({ response := response, intent := "list_todos", processed := true }, st)

/-! ### Intent classification (`chat.py` lines 272-296) -/

/-- The five command categories plus the fall-through label. -/
inductive Intent
  | create | update | complete | delete | list | unknown
deriving Repr, DecidableEq

/-- The keyword chain of `process_natural_language_command`: the five
`any(word in message_lower for word in [...])` tests, in source order,
first hit wins. -/
def classifyIntent (message : String) : Intent :=
  let ml := strLower message
  if ["add", "create", "make", "new", "buy", "get"].any (fun w => strContains ml w) then
    .create
  else if ["update", "change", "modify", "edit"].any (fun w => strContains ml w) then
    .update
  else if ["complete", "done", "finish", "mark"].any (fun w => strContains ml w) then
    .complete
  else if ["delete", "remove", "cancel"].any (fun w => strContains ml w) then
    .delete
  else if ["show", "list", "display", "view", "see", "my"].any (fun w => strContains ml w) then
    .list
  else .unknown

/-- `chat.py` lines 272-296, `process_natural_language_command`: the
if/elif keyword chain selecting a handler, written as the classifier
followed by a dispatch on its label. -/
def process_natural_language_command (message : String) (user_id : Nat) (st : List Todo) :
    CmdResult × List Todo :=
  match classifyIntent message with
  | .create => process_create_todo_command message user_id st
  | .update => process_update_todo_command message user_id st
  | .complete => process_complete_todo_command message user_id st
  | .delete => process_delete_todo_command message user_id st
  | .list => process_list_todos_command message user_id st
  | .unknown =>
    ({ response := "I'm not sure how to handle '" ++ message ++
         "'. Try commands like 'Add a task to buy milk' or 'Show my tasks'."
     , intent := "unknown", processed := false }, st)

/-! ### Chat sessions, conversations and messages
(`chat.py` lines 20-270, `models/chat_models.py`,
`services/chat_service.py`) -/

/-- Row of the `user` table (only the columns the chat endpoints read). -/
structure User where
  id : Nat
  username : String
deriving Repr, DecidableEq

/-- Message roles (`RoleType` in `chat_models.py`). -/
inductive RoleType
  | user | assistant
deriving Repr, DecidableEq

/-- Row of the `message` table (the surrogate `id` and `created_at`
columns are represented by the row's position: `MessageRepository`
appends and reads back in creation order). -/
structure Message where
  user_id : Nat
  conversation_id : Nat
  role : RoleType
  content : String
deriving Repr, DecidableEq

/-- One value of the in-memory `chat_sessions` dict (`chat.py` line 47);
the `createdAt`/`updatedAt` timestamps are never read by the endpoints
and are omitted. -/
structure ChatSessionInfo where
  userId : Nat
  username : String
  conversationId : Nat
  isActive : Bool
deriving Repr, DecidableEq

/-- The state the chat endpoints touch: the in-memory session registry,
the persistent `message` table (append-only, creation order) and the
`todo` table.  The `user` table is read-only here. -/
structure ServerState where
  chat_sessions : List (String × ChatSessionInfo)
  messages : List Message
  todos : List Todo
  users : List User
deriving Repr, DecidableEq

/-- `sessionId in chat_sessions` plus `chat_sessions[sessionId]`. -/
def lookupSession (s : ServerState) (sessionId : String) : Option ChatSessionInfo :=
  (s.chat_sessions.find? (fun p => p.1 == sessionId)).map (fun p => p.2)

/-- Overwrite the registry entry of an existing session id. -/
def setSession (s : ServerState) (sessionId : String) (v : ChatSessionInfo) : ServerState :=
  { s with chat_sessions :=
      s.chat_sessions.map (fun p => if p.1 == sessionId then (p.1, v) else p) }

/-- `select(User).where(User.username == u)).first()` (usernames are
unique by schema). -/
def findUser (s : ServerState) (username : String) : Option User :=
  s.users.find? (fun u => u.username == username)

/-- The `HTTPException`s the chat endpoints raise. -/
inductive ChatError
  | sessionNotFound
  | notAuthorized
  | sessionInactive
  | noConversation
  | userNotFound
deriving Repr, DecidableEq

/-- Body of `ChatMessageResponse` (`chat.py` lines 24-29). -/
structure ChatMessageResponse where
  response : String
  intent : String
  processed : Bool
  sessionId : String
  conversationId : Nat
deriving Repr, DecidableEq

/-- Body of `ChatEndResponse` (`chat.py` lines 42-44). -/
structure ChatEndResponse where
  message : String
  sessionId : String
deriving Repr, DecidableEq

/-- `ChatService.create_message` (`chat_service.py` lines 32-40):
append one row to the `message` table. -/
def create_message (s : ServerState) (user_id conversation_id : Nat)
    (role : RoleType) (content : String) : ServerState :=
  { s with messages := s.messages ++
      [{ user_id := user_id, conversation_id := conversation_id
       , role := role, content := content }] }

/-- `chat.py` lines 90-170, `send_chat_message`.  The guards run in
source order: unknown session id (404), session owner vs
`request.userId` (403), inactive session (400), current user lookup and
id check (403), missing/falsy conversation id (400).  An accepted call
appends the user message, runs the command pipeline, then appends the
assistant message. -/
def send_chat_message (sessionId : String) (reqMessage : String) (reqUserId : Nat)
    (current_user : String) (s : ServerState) :
    Except ChatError ChatMessageResponse × ServerState :=
  match lookupSession s sessionId with
  | none => (.error .sessionNotFound, s)
  | some cs =>
    if !(cs.userId == reqUserId) then (.error .notAuthorized, s)
    else if !cs.isActive then (.error .sessionInactive, s)
    else
      match findUser s current_user with
      | none => (.error .notAuthorized, s)
      | some user =>
        if !(user.id == reqUserId) then (.error .notAuthorized, s)
        else if cs.conversationId == 0 then (.error .noConversation, s)
        else
          let conversation_id := cs.conversationId
          let s1 := create_message s user.id conversation_id .user reqMessage
          let ai := process_natural_language_command reqMessage user.id s1.todos
          let s2 := { create_message s1 user.id conversation_id .assistant ai.1.response
                      with todos := ai.2 }
          (.ok { response := ai.1.response, intent := ai.1.intent
               , processed := ai.1.processed, sessionId := sessionId
               , conversationId := conversation_id }, s2)

/-- `chat.py` lines 237-270, `end_chat_session`: unknown session id
(404), owner check (403), then unconditionally set `isActive := false`
and reply with the fixed success message — the current state of
`isActive` is never consulted. -/
def end_chat_session (sessionId : String) (current_user : String) (s : ServerState) :
    Except ChatError ChatEndResponse × ServerState :=
  match lookupSession s sessionId with
  | none => (.error .sessionNotFound, s)
  | some cs =>
    match findUser s current_user with
    | none => (.error .notAuthorized, s)
    | some user =>
      if !(user.id == cs.userId) then (.error .notAuthorized, s)
      else
        (.ok { message := "Chat session ended successfully", sessionId := sessionId }
        , setSession s sessionId { cs with isActive := false })

/-! ### Store lemmas shared by the claims -/

/-- When the owner has no rows, any filter whose predicate entails the
owner test is empty. -/
theorem filter_conj_nil {uid : Nat} {st : List Todo} (h : ownerTodos uid st = [])
    (p : Todo → Bool) (hp : ∀ t, p t = true → (t.user_id == uid) = true) :
    st.filter p = [] := by
  unfold ownerTodos at h
  rw [List.filter_eq_nil_iff] at h ⊢
  intro t ht hc
  exact h t ht (hp t hc)

/-- When the owner has no rows, any `first()` query whose predicate
entails the owner test returns nothing. -/
theorem firstNewest_conj_none {uid : Nat} {st : List Todo} (h : ownerTodos uid st = [])
    (p : Todo → Bool) (hp : ∀ t, p t = true → (t.user_id == uid) = true) :
    firstNewest p st = none := by
  unfold firstNewest
  rw [filter_conj_nil h p hp]
  rfl

/-! ### The claims -/

/-- C1: the spec says `create("add milk")` inserts one todo titled
"milk" for the owner and returns `processed = true`.  The code cannot:
`chat.py` line 307 passes the method object `message.lower` to
`re.search`, so every create command takes the exception arm, returns
`processed = false` with the apology reply, and leaves the todo table
untouched — while the message is still classified as a create command. -/
theorem c1_create_executor_always_fails (uid : Nat) (st : List Todo) :
    classifyIntent "add milk" = Intent.create ∧
    process_natural_language_command "add milk" uid st =
      ({ response := "Sorry, I couldn't create that task: expected string or bytes-like object, got 'builtin_function_or_method'"
       , intent := "create_todo", processed := false }, st) ∧
    ∀ msg : String, (process_create_todo_command msg uid st).1.processed = false ∧
      (process_create_todo_command msg uid st).2 = st := by
  have hc : classifyIntent "add milk" = Intent.create := by decide
  refine ⟨hc, ?_, fun msg => ⟨rfl, rfl⟩⟩
  unfold process_natural_language_command
  rw [hc]
  rfl

/-- C2: the intent classifier is a total function on message text; a
message containing any of "add", "create", "buy", "get" (substring of
the lower-cased text) is classified `create` because the create
category is tested first, and a message containing no keyword of any of
the five categories is classified `unknown`. -/
theorem c2_classifier_create_first_unknown_last (m : String) :
    ((strContains (strLower m) "add" || strContains (strLower m) "create" ||
        strContains (strLower m) "buy" || strContains (strLower m) "get") = true →
      classifyIntent m = Intent.create) ∧
    ((∀ w ∈ ["add", "create", "make", "new", "buy", "get",
        "update", "change", "modify", "edit",
        "complete", "done", "finish", "mark",
        "delete", "remove", "cancel",
        "show", "list", "display", "view", "see", "my"],
        strContains (strLower m) w = false) →
      classifyIntent m = Intent.unknown) := by
  constructor
  · intro h
    have hany : (["add", "create", "make", "new", "buy", "get"].any
        (fun w => strContains (strLower m) w)) = true := by
      simp only [List.any_cons, List.any_nil, Bool.or_false, Bool.or_eq_true] at h ⊢
      tauto
    unfold classifyIntent
    rw [if_pos hany]
  · intro h
    simp only [List.forall_mem_cons, List.forall_mem_nil, and_true] at h
    obtain ⟨hadd, hcreate, hmake, hnew, hbuy, hget, hupd, hchange, hmodify, hedit,
      hcomplete, hdone, hfinish, hmark, hdel, hremove, hcancel,
      hshow, hlst, hdisplay, hview, hsee, hmy⟩ := h
    simp [classifyIntent, hadd, hcreate, hmake, hnew, hbuy, hget, hupd, hchange, hmodify,
      hedit, hcomplete, hdone, hfinish, hmark, hdel, hremove, hcancel, hshow, hlst,
      hdisplay, hview, hsee, hmy]

/-- Witness for C2 at two concrete messages: "add milk" is classified
`create`, "hello there" (no keyword occurs) is classified `unknown`. -/
theorem c2_classifier_witness :
    classifyIntent "add milk" = Intent.create ∧
    classifyIntent "hello there" = Intent.unknown := by
  constructor
  · exact (c2_classifier_create_first_unknown_last "add milk").1 (by decide)
  · exact (c2_classifier_create_first_unknown_last "hello there").2 (by decide)

/-- C5: for every message routed to the complete handler, an owner with
zero todos gets a `processed = false` result and the todo table is
returned unchanged — every branch of `process_complete_todo_command`
either finds no row to mutate or answers without touching the store. -/
theorem c5_complete_zero_todos (message : String) (uid : Nat) (st : List Todo)
    (h : ownerTodos uid st = []) :
    (process_complete_todo_command message uid st).1.processed = false ∧
    (process_complete_todo_command message uid st).2 = st := by
  have hie : (ownerTodos uid st).isEmpty = true := by rw [h]; rfl
  unfold process_complete_todo_command
  cases hx : completeTargetExtract message with
  | none =>
    simp only
    by_cases hk : (["complete", "done", "finish"].any
        (fun w => strContains (strLower message) w)) = true
    · rw [if_pos hk, firstNewest_conj_none h _
        (by intro t ht; simp only [Bool.and_eq_true] at ht; exact ht.1)]
      exact ⟨rfl, rfl⟩
    · rw [if_neg hk]
      exact ⟨rfl, rfl⟩
  | some g =>
    simp only
    rw [firstNewest_conj_none h _
      (by intro t ht; simp only [Bool.and_eq_true] at ht; exact ht.1.1)]
    simp only [hie, if_pos]
    trivial

/-- Witness for C5: the message "complete milk" for owner 1 against a
store holding only a todo of owner 2 is not processed and changes
nothing. -/
theorem c5_complete_zero_todos_witness :
    ownerTodos 1 [{ id := 7, title := "pay rent", description := "", completed := false
                  , user_id := 2, created_at := 3 }] = [] ∧
    (process_complete_todo_command "complete milk" 1
        [{ id := 7, title := "pay rent", description := "", completed := false
         , user_id := 2, created_at := 3 }]).1.processed = false ∧
    (process_complete_todo_command "complete milk" 1
        [{ id := 7, title := "pay rent", description := "", completed := false
         , user_id := 2, created_at := 3 }]).2 =
      [{ id := 7, title := "pay rent", description := "", completed := false
       , user_id := 2, created_at := 3 }] := by
  refine ⟨by decide, ?_⟩
  exact c5_complete_zero_todos "complete milk" 1 _ (by decide)

/-- C7: the list handler reads the owner's todos newest-first and never
writes; the result is always `processed = true`; an empty set yields
the encouragement reply; otherwise the reply shows the first 5 titles
(never more) and appends "... and (n-5) more" exactly when the owner
has more than 5 todos. -/
theorem c7_list_shows_five_plus_count (message : String) (uid : Nat) (st : List Todo) :
    (process_list_todos_command message uid st).1.processed = true ∧
    (process_list_todos_command message uid st).2 = st ∧
    ((sortNewestFirst (ownerTodos uid st)).take 5).length ≤ 5 ∧
    (((sortNewestFirst (ownerTodos uid st)).length : Int) - 5 > 0 ↔
      5 < (sortNewestFirst (ownerTodos uid st)).length) ∧
    (sortNewestFirst (ownerTodos uid st) = [] →
      (process_list_todos_command message uid st).1.response =
        "You don't have any tasks yet. Try adding one!") ∧
    (sortNewestFirst (ownerTodos uid st) ≠ [] →
      (process_list_todos_command message uid st).1.response =
        "Here are your tasks:\n" ++
          String.intercalate "\n"
            (((sortNewestFirst (ownerTodos uid st)).take 5).map (fun t => "- " ++ t.title)) ++
          (if ((sortNewestFirst (ownerTodos uid st)).length : Int) - 5 > 0 then
            "\n... and " ++ toString (((sortNewestFirst (ownerTodos uid st)).length : Int) - 5)
              ++ " more"
          else "")) := by
  have hlen : ((sortNewestFirst (ownerTodos uid st)).take 5).length ≤ 5 := by
    rw [List.length_take]; omega
  have hiff : (((sortNewestFirst (ownerTodos uid st)).length : Int) - 5 > 0 ↔
      5 < (sortNewestFirst (ownerTodos uid st)).length) := by omega
  unfold process_list_todos_command
  by_cases he : (sortNewestFirst (ownerTodos uid st)).isEmpty = true
  · have he' : sortNewestFirst (ownerTodos uid st) = [] := by
      rwa [List.isEmpty_iff] at he
    rw [if_pos he]
    exact ⟨rfl, rfl, hlen, hiff, fun _ => rfl, fun hne => absurd he' hne⟩
  · have he' : ¬ sortNewestFirst (ownerTodos uid st) = [] := by
      rwa [List.isEmpty_iff] at he
    rw [if_neg he]
    refine ⟨rfl, rfl, hlen, hiff, fun hz => absurd hz he', fun _ => ?_⟩
    by_cases hg : ((sortNewestFirst (ownerTodos uid st)).length : Int) - 5 > 0
    · simp only [hg, if_pos]
      simp [String.append_assoc]
    · simp only [hg, if_neg, if_false]
      simp [String.append_empty]

/-- Witness for C7: owner 1 with seven todos (creation ticks 1..7) gets
the five newest titles and "... and 2 more". -/
theorem c7_list_witness :
    (process_list_todos_command "show my tasks" 1
      [{ id := 1, title := "a", description := "", completed := false, user_id := 1, created_at := 1 },
       { id := 2, title := "b", description := "", completed := false, user_id := 1, created_at := 2 },
       { id := 3, title := "c", description := "", completed := false, user_id := 1, created_at := 3 },
       { id := 4, title := "d", description := "", completed := false, user_id := 1, created_at := 4 },
       { id := 5, title := "e", description := "", completed := false, user_id := 1, created_at := 5 },
       { id := 6, title := "f", description := "", completed := false, user_id := 1, created_at := 6 },
       { id := 7, title := "g", description := "", completed := false, user_id := 1, created_at := 7 }]).1.response =
      "Here are your tasks:\n- g\n- f\n- e\n- d\n- c\n... and 2 more" := by
  rw [(c7_list_shows_five_plus_count "show my tasks" 1 _).2.2.2.2.2 (by decide)]
  rfl

/-- Overwriting an existing registry entry is visible to a subsequent
lookup of the same session id. -/
theorem find_set_entry (l : List (String × ChatSessionInfo)) (sid : String)
    (v : ChatSessionInfo) (h : (l.find? (fun p => p.1 == sid)).isSome = true) :
    (l.map (fun p => if p.1 == sid then (p.1, v) else p)).find? (fun p => p.1 == sid) =
      some (sid, v) := by
  induction l with
  | nil => simp [List.find?] at h
  | cons a l ih =>
    by_cases ha : (a.1 == sid) = true
    · have : a.1 = sid := by simpa using ha
      simp [List.find?, ha, this]
    · rw [@List.find?_cons_of_neg _ (fun p => p.1 == sid) a l ha] at h
      rw [List.map_cons, if_neg ha,
        @List.find?_cons_of_neg _ (fun p => p.1 == sid) a _ ha]
      exact ih h

/-- C10: ending a chat session is idempotent at the interface: on a
session that is already inactive, `end_chat_session` runs the same
owner checks, returns the same fixed success reply, and leaves the
session's `isActive` flag false — the handler never consults the
current flag, it only overwrites it. -/
theorem c10_end_session_idempotent (sessionId current_user : String) (s : ServerState)
    (cs : ChatSessionInfo) (user : User)
    (hs : lookupSession s sessionId = some cs)
    (hinactive : cs.isActive = false)
    (hu : findUser s current_user = some user)
    (hid : user.id = cs.userId) :
    (end_chat_session sessionId current_user s).1 =
      Except.ok { message := "Chat session ended successfully", sessionId := sessionId } ∧
    (lookupSession (end_chat_session sessionId current_user s).2 sessionId).map
        (fun c => c.isActive) = some false := by
  have hbeq : (user.id == cs.userId) = true := by simpa using hid
  unfold end_chat_session
  rw [hs, hu]
  simp only [hbeq, Bool.not_true, Bool.false_eq_true, if_false]
  refine ⟨by trivial, ?_⟩
  have hsome : ((s.chat_sessions.find? (fun p => p.1 == sessionId)).isSome = true) := by
    unfold lookupSession at hs
    cases hfind : s.chat_sessions.find? (fun p => p.1 == sessionId) with
    | none => rw [hfind] at hs; cases hs
    | some p => rfl
  unfold lookupSession setSession
  rw [find_set_entry s.chat_sessions sessionId { cs with isActive := false } hsome]
  rfl

/-- Witness for C10: a second end call on an already-ended session of
owner 1 succeeds with the fixed reply and keeps the flag false. -/
theorem c10_end_session_witness :
    (end_chat_session "sess_1" "alice"
        { chat_sessions := [("sess_1",
            { userId := 1, username := "alice", conversationId := 4, isActive := false })]
        , messages := [], todos := [], users := [{ id := 1, username := "alice" }] }).1 =
      Except.ok { message := "Chat session ended successfully", sessionId := "sess_1" } ∧
    (lookupSession (end_chat_session "sess_1" "alice"
        { chat_sessions := [("sess_1",
            { userId := 1, username := "alice", conversationId := 4, isActive := false })]
        , messages := [], todos := [], users := [{ id := 1, username := "alice" }] }).2
        "sess_1").map (fun c => c.isActive) = some false :=
  c10_end_session_idempotent "sess_1" "alice" _
    { userId := 1, username := "alice", conversationId := 4, isActive := false }
    { id := 1, username := "alice" } (by decide) (by decide) (by decide) (by decide)

/-- C8: once `end_chat_session` has run on a session (owner checks
passing), every later `send_chat_message` on that session id with the
session owner's user id is rejected with the inactive-session error
before any processing, and — whatever user id the later call carries —
the conversation's message sequence is left unchanged: the rejection
happens before either `create_message` call. -/
theorem c8_send_after_end_is_rejected (sessionId current_user : String) (s : ServerState)
    (cs : ChatSessionInfo) (user : User)
    (hs : lookupSession s sessionId = some cs)
    (hu : findUser s current_user = some user)
    (hid : user.id = cs.userId)
    (msg : String) (reqUid : Nat) (cu2 : String) :
    (reqUid = cs.userId →
      send_chat_message sessionId msg reqUid cu2 (end_chat_session sessionId current_user s).2 =
        (.error .sessionInactive, (end_chat_session sessionId current_user s).2)) ∧
    (send_chat_message sessionId msg reqUid cu2
        (end_chat_session sessionId current_user s).2).2.messages =
      (end_chat_session sessionId current_user s).2.messages := by
  have hbeq : (user.id == cs.userId) = true := by simpa using hid
  have hsome : (s.chat_sessions.find? (fun p => p.1 == sessionId)).isSome = true := by
    unfold lookupSession at hs
    cases hfind : s.chat_sessions.find? (fun p => p.1 == sessionId) with
    | none => rw [hfind] at hs; cases hs
    | some p => rfl
  have hend2 : (end_chat_session sessionId current_user s).2 =
      setSession s sessionId { cs with isActive := false } := by
    unfold end_chat_session
    rw [hs, hu]
    simp [hbeq]
  have hlook : lookupSession (setSession s sessionId { cs with isActive := false })
      sessionId = some { cs with isActive := false } := by
    unfold lookupSession setSession
    rw [find_set_entry s.chat_sessions sessionId _ hsome]
    rfl
  rw [hend2]
  constructor
  · intro hr
    have hq : (({ cs with isActive := false } : ChatSessionInfo).userId == reqUid) = true := by
      simp [hr]
    unfold send_chat_message
    rw [hlook]
    simp [hq]
  · unfold send_chat_message
    rw [hlook]
    by_cases hq : (({ cs with isActive := false } : ChatSessionInfo).userId == reqUid) = true
    · simp [hq]
    · simp [hq]

/-- Witness for C8: owner 1 ends session "sess_1" and then sends
"add milk" on it; the call returns the inactive-session error and the
state (hence the message list) is unchanged. -/
theorem c8_send_after_end_witness :
    send_chat_message "sess_1" "add milk" 1 "alice"
        (end_chat_session "sess_1" "alice"
          { chat_sessions := [("sess_1",
              { userId := 1, username := "alice", conversationId := 4, isActive := true })]
          , messages := [], todos := [], users := [{ id := 1, username := "alice" }] }).2 =
      (.error .sessionInactive,
        (end_chat_session "sess_1" "alice"
          { chat_sessions := [("sess_1",
              { userId := 1, username := "alice", conversationId := 4, isActive := true })]
          , messages := [], todos := [], users := [{ id := 1, username := "alice" }] }).2) :=
  (c8_send_after_end_is_rejected "sess_1" "alice" _
    { userId := 1, username := "alice", conversationId := 4, isActive := true }
    { id := 1, username := "alice" } (by decide) (by decide) (by decide)
    "add milk" 1 "alice").1 (by decide)

/-- C3: an accepted chat message (session found, owner matching,
session active, user lookup passing, conversation id present) appends
exactly two rows to the `message` table, in order: the user's raw text
with role `user`, then — with role `assistant` — the reply of the
handler the keyword chain selected, and the call returns ok. -/
theorem c3_accepted_message_appends_two (sessionId msg : String) (reqUid : Nat)
    (current_user : String) (s : ServerState) (cs : ChatSessionInfo) (user : User)
    (hs : lookupSession s sessionId = some cs)
    (hown : cs.userId = reqUid)
    (hact : cs.isActive = true)
    (hu : findUser s current_user = some user)
    (hid : user.id = reqUid)
    (hconv : cs.conversationId ≠ 0) :
    (send_chat_message sessionId msg reqUid current_user s).2.messages =
      s.messages ++
        [{ user_id := user.id, conversation_id := cs.conversationId
         , role := RoleType.user, content := msg },
         { user_id := user.id, conversation_id := cs.conversationId
         , role := RoleType.assistant
         , content := (process_natural_language_command msg user.id s.todos).1.response }] ∧
    ∃ r, (send_chat_message sessionId msg reqUid current_user s).1 = Except.ok r := by
  have h1 : (cs.userId == reqUid) = true := by simpa using hown
  have h2 : (user.id == reqUid) = true := by simpa using hid
  have h3 : (cs.conversationId == 0) = false := by simpa using hconv
  unfold send_chat_message
  rw [hs, hu]
  simp only [h1, h2, h3, hact, Bool.not_true, Bool.false_eq_true, if_false, if_true,
    Bool.not_false, Bool.true_eq_false]
  unfold create_message
  constructor
  · simp
  · exact ⟨_, rfl⟩

/-- Witness for C3: a concrete accepted message ("remove milk" from
owner 1 on an empty store) appends the user row and the assistant row
carrying the delete handler's reply. -/
theorem c3_accepted_message_witness :
    (send_chat_message "sess_1" "remove milk" 1 "alice"
        { chat_sessions := [("sess_1",
            { userId := 1, username := "alice", conversationId := 4, isActive := true })]
        , messages := [], todos := [], users := [{ id := 1, username := "alice" }] }).2.messages =
      [] ++
        [{ user_id := 1, conversation_id := 4, role := RoleType.user, content := "remove milk" },
         { user_id := 1, conversation_id := 4, role := RoleType.assistant
         , content := (process_natural_language_command "remove milk" 1 []).1.response }] :=
  (c3_accepted_message_appends_two "sess_1" "remove milk" 1 "alice" _
    { userId := 1, username := "alice", conversationId := 4, isActive := true }
    { id := 1, username := "alice" }
    (by decide) (by decide) (by decide) (by decide) (by decide) (by decide)).1

/-- C4: part one — "change milk to bread" against a store holding just
the owner's todo titled "buy milk" (not completed) renames it to
"bread" and reports `processed = true`; part two — whenever the update
pattern extracts a phrase that no todo of the owner contains
(case-insensitively) while the owner does have todos, the handler
answers with the candidate list built from at most the first 5 of the
owner's titles, `processed = false`, and the store is unchanged. -/
theorem c4_update_rename_and_candidate_list :
    (∀ (uid : Nat) (td : Todo), td.user_id = uid → td.title = "buy milk" →
      td.completed = false →
      process_update_todo_command "change milk to bread" uid [td] =
        ({ response := "I've updated the task 'bread' (marked incomplete)."
         , intent := "update_todo", processed := true }, [{ td with title := "bread" }])) ∧
    (∀ (msg : String) (uid : Nat) (st : List Todo) (g : List Char),
      updateTargetExtract msg = some g →
      (∀ t ∈ st, t.user_id = uid →
        strContains (strLower t.title) (strLower (pyStrip (String.mk g))) = false) →
      ownerTodos uid st ≠ [] →
      process_update_todo_command msg uid st =
        ({ response := "I couldn't find a task containing '" ++ pyStrip (String.mk g) ++
             "'. Here are your tasks: " ++
             String.intercalate ", "
               (((ownerTodos uid st).take 5).map (fun t => "'" ++ t.title ++ "'"))
         , intent := "update_todo", processed := false }, st) ∧
      ((ownerTodos uid st).take 5).length ≤ 5) := by
  constructor
  · intro uid td h1 h2 h3
    have hg : updateTargetExtract "change milk to bread" = some "milk".data := by decide
    have hts : pyStrip (String.mk "milk".data) = "milk" := by decide
    have hci : containsCI "buy milk" "milk" = true := by decide
    have hp : (td.user_id == uid && containsCI td.title (pyStrip (String.mk "milk".data)))
        = true := by
      rw [h1, h2, hts, hci]
      simp
    have hfn : firstNewest
        (fun t => t.user_id == uid && containsCI t.title (pyStrip (String.mk "milk".data)))
        [td] = some td := by
      unfold firstNewest sortNewestFirst
      simp [List.filter, hp, insertDesc]
    unfold process_update_todo_command
    rw [hg]
    simp only
    rw [hfn]
    unfold applyUpdate newTodoForUpdate
    have hn : updateNewTitleExtract "change milk to bread" = some "bread".data := by decide
    rw [hn]
    have hts2 : pyStrip (String.mk "bread".data) = "bread" := by decide
    simp only [hts2, h3, Bool.false_eq_true, if_false]
    unfold replaceById
    simp

  · intro msg uid st g hg hnone hne
    have htt : ∀ t ∈ st, (t.user_id == uid) = true →
        containsCI t.title (pyStrip (String.mk g)) = false := by
      intro t ht hu
      have := hnone t ht (by simpa using hu)
      simpa [containsCI] using this
    have hfil : st.filter
        (fun t => t.user_id == uid && containsCI t.title (pyStrip (String.mk g))) = [] := by
      rw [List.filter_eq_nil_iff]
      intro t ht hc
      simp only [Bool.and_eq_true] at hc
      rw [htt t ht hc.1] at hc
      exact absurd hc.2 (by simp)
    have hfn : firstNewest
        (fun t => t.user_id == uid && containsCI t.title (pyStrip (String.mk g))) st =
        none := by
      unfold firstNewest
      rw [hfil]
      rfl
    have hie : ¬ ((ownerTodos uid st).isEmpty = true) := by
      rw [List.isEmpty_iff]
      exact hne
    have hfil2 : (ownerTodos uid st).filter
        (fun t => strContains (strLower t.title) (strLower (pyStrip (String.mk g)))) = [] := by
      rw [List.filter_eq_nil_iff]
      intro t ht hc
      have hm := List.mem_filter.mp ht
      have := htt t hm.1 hm.2
      rw [containsCI] at this
      exact absurd hc (by rw [this]; simp)
    refine ⟨?_, by rw [List.length_take]; omega⟩
    unfold process_update_todo_command
    rw [hg]
    simp only
    rw [hfn]
    simp only
    rw [if_neg hie]
    rw [hfil2]
    rfl

/-- Witness for C4: the rename succeeds on the concrete "buy milk"
store, and "change xyz" against a store holding only "alpha" returns
the candidate list unprocessed. -/
theorem c4_update_witness :
    process_update_todo_command "change milk to bread" 1
        [{ id := 3, title := "buy milk", description := "", completed := false
         , user_id := 1, created_at := 5 }] =
      ({ response := "I've updated the task 'bread' (marked incomplete)."
       , intent := "update_todo", processed := true },
       [{ id := 3, title := "bread", description := "", completed := false
        , user_id := 1, created_at := 5 }]) ∧
    process_update_todo_command "change xyz" 1
        [{ id := 1, title := "alpha", description := "", completed := false
         , user_id := 1, created_at := 2 }] =
      ({ response := "I couldn't find a task containing 'xyz'. Here are your tasks: 'alpha'"
       , intent := "update_todo", processed := false },
       [{ id := 1, title := "alpha", description := "", completed := false
        , user_id := 1, created_at := 2 }]) := by
  constructor
  · exact c4_update_rename_and_candidate_list.1 1 _ rfl rfl rfl
  · have h := (c4_update_rename_and_candidate_list.2 "change xyz" 1
      [{ id := 1, title := "alpha", description := "", completed := false
       , user_id := 1, created_at := 2 }] "xyz".data (by decide) (by decide) (by decide)).1
    rw [h]
    rfl

/-- `insertDesc` only rearranges: membership is preserved. -/
theorem mem_insertDesc {x t : Todo} {l : List Todo} :
    x ∈ insertDesc t l ↔ x = t ∨ x ∈ l := by
  induction l with
  | nil => simp [insertDesc]
  | cons a l ih =>
    unfold insertDesc
    by_cases hc : t.created_at ≤ a.created_at
    · rw [if_pos hc]
      simp only [List.mem_cons, ih]
      tauto
    · rw [if_neg hc]
      simp only [List.mem_cons]

/-- The descending sort only rearranges: membership is preserved. -/
theorem mem_sortNewestFirst {x : Todo} {l : List Todo} :
    x ∈ sortNewestFirst l ↔ x ∈ l := by
  induction l with
  | nil => simp [sortNewestFirst]
  | cons a l ih =>
    unfold sortNewestFirst at ih ⊢
    rw [List.foldr_cons, mem_insertDesc, ih, List.mem_cons]

/-- A row returned by a `first()` query satisfies the filter and lies
in the table. -/
theorem firstNewest_some_mem {p : Todo → Bool} {st : List Todo} {todo : Todo}
    (h : firstNewest p st = some todo) : todo ∈ st ∧ p todo = true := by
  unfold firstNewest at h
  have hm : todo ∈ sortNewestFirst (st.filter p) := by
    cases hl : sortNewestFirst (st.filter p) with
    | nil => rw [hl] at h; cases h
    | cons a l =>
      rw [hl] at h
      have ha : a = todo := by simpa using h
      subst ha
      exact List.mem_cons_self a l
  rw [mem_sortNewestFirst] at hm
  exact ⟨(List.mem_filter.mp hm).1, (List.mem_filter.mp hm).2⟩

/-- C6: part one — when the delete handler's query resolves a target
todo, that row (by primary key) is removed, the reply names it with
`processed = true`, and the rows the list handler would subsequently
fetch for the owner contain no row with that key; part two — when the
extracted phrase matches no todo of the owner, the handler returns the
no-match natural-language reply (the "nothing to delete" or the
candidate-list variant), `processed = false`, and the store unchanged —
no exception escapes. -/
theorem c6_delete_removes_then_no_match :
    (∀ (msg : String) (uid : Nat) (st : List Todo) (g : List Char) (todo : Todo),
      deleteTargetExtract msg = some g →
      firstNewest (fun t => t.user_id == uid && containsCI t.title (pyStrip (String.mk g)))
          st = some todo →
      process_delete_todo_command msg uid st =
        ({ response := "I've deleted the task '" ++ todo.title ++ "'."
         , intent := "delete_todo", processed := true }, removeById st todo.id) ∧
      ∀ t ∈ sortNewestFirst (ownerTodos uid (removeById st todo.id)), t.id ≠ todo.id) ∧
    (∀ (msg : String) (uid : Nat) (st : List Todo) (g : List Char),
      deleteTargetExtract msg = some g →
      (∀ t ∈ st, t.user_id = uid →
        strContains (strLower t.title) (strLower (pyStrip (String.mk g))) = false) →
      process_delete_todo_command msg uid st =
        ((if ownerTodos uid st = [] then
            ({ response := "You don't have any tasks to delete."
             , intent := "delete_todo", processed := false } : CmdResult)
          else
            { response := "I couldn't find a task containing '" ++ pyStrip (String.mk g) ++
                "'. Here are your tasks: " ++
                String.intercalate ", "
                  (((ownerTodos uid st).take 5).map (fun t => "'" ++ t.title ++ "'"))
            , intent := "delete_todo", processed := false }), st)) := by
  constructor
  · intro msg uid st g todo hg hfn
    constructor
    · unfold process_delete_todo_command
      rw [hg]
      simp only
      rw [hfn]
    · intro t ht
      rw [mem_sortNewestFirst] at ht
      unfold ownerTodos at ht
      have h1 := (List.mem_filter.mp ht).1
      unfold removeById at h1
      have h2 := (List.mem_filter.mp h1).2
      simpa using h2
  · intro msg uid st g hg hnone
    have htt : ∀ t ∈ st, (t.user_id == uid) = true →
        containsCI t.title (pyStrip (String.mk g)) = false := by
      intro t ht hu
      have := hnone t ht (by simpa using hu)
      simpa [containsCI] using this
    have hfil : st.filter
        (fun t => t.user_id == uid && containsCI t.title (pyStrip (String.mk g))) = [] := by
      rw [List.filter_eq_nil_iff]
      intro t ht hc
      simp only [Bool.and_eq_true] at hc
      rw [htt t ht hc.1] at hc
      exact absurd hc.2 (by simp)
    have hfn : firstNewest
        (fun t => t.user_id == uid && containsCI t.title (pyStrip (String.mk g))) st =
        none := by
      unfold firstNewest
      rw [hfil]
      rfl
    unfold process_delete_todo_command
    rw [hg]
    simp only
    rw [hfn]
    by_cases he : ownerTodos uid st = []
    · rw [if_pos he]
      have hie : (ownerTodos uid st).isEmpty = true := by rw [he]; rfl
      simp only [hie, if_pos]
    · rw [if_neg he]
      have hie : ¬ ((ownerTodos uid st).isEmpty = true) := by
        rw [List.isEmpty_iff]
        exact he
      rw [if_neg hie]
      have hfil2 : (ownerTodos uid st).filter
          (fun t => strContains (strLower t.title) (strLower (pyStrip (String.mk g)))) =
          [] := by
        rw [List.filter_eq_nil_iff]
        intro t ht hc
        have hm := List.mem_filter.mp ht
        have := htt t hm.1 hm.2
        rw [containsCI] at this
        exact absurd hc (by rw [this]; simp)
      rw [hfil2]
      rfl

/-- Witness for C6: "delete milk" removes owner 1's only todo "milk";
repeating it on the now-empty store returns the "nothing to delete"
reply unprocessed with the store still empty. -/
theorem c6_delete_witness :
    process_delete_todo_command "delete milk" 1
        [{ id := 2, title := "milk", description := "", completed := false
         , user_id := 1, created_at := 1 }] =
      ({ response := "I've deleted the task 'milk'."
       , intent := "delete_todo", processed := true },
       removeById
         [{ id := 2, title := "milk", description := "", completed := false
          , user_id := 1, created_at := 1 }] 2) ∧
    process_delete_todo_command "delete milk" 1 [] =
      ((if ownerTodos 1 ([] : List Todo) = [] then
          ({ response := "You don't have any tasks to delete."
           , intent := "delete_todo", processed := false } : CmdResult)
        else
          { response := "I couldn't find a task containing 'milk'. Here are your tasks: "
          , intent := "delete_todo", processed := false }), ([] : List Todo)) := by
  constructor
  · exact (c6_delete_removes_then_no_match.1 "delete milk" 1 _ "milk".data
      { id := 2, title := "milk", description := "", completed := false
      , user_id := 1, created_at := 1 } (by decide) (by decide)).1
  · have h := c6_delete_removes_then_no_match.2 "delete milk" 1 [] "milk".data
      (by decide) (by decide)
    rw [h]
    rfl

/-! ### Owner-scoping lemmas (for the isolation claim)

Every query a handler issues filters on `user_id == uid` first, and
every write goes through `replaceById`/`removeById` on a row the query
returned.  The lemmas below show such reads see only the owner's rows
and such writes leave every other owner's rows untouched. -/

/-- The head of a list is one of its members. -/
theorem head?_some_mem {α : Type} {l : List α} {a : α} (h : l.head? = some a) : a ∈ l := by
  obtain ⟨ys, hys⟩ := List.head?_eq_some_iff.mp h
  rw [hys]
  exact List.mem_cons_self a ys

/-- Primary-key uniqueness: two rows of the table with the same id are
the same row. -/
theorem eq_of_mem_of_nodupIds {st : List Todo} (h : nodupIds st) {t1 t2 : Todo}
    (h1 : t1 ∈ st) (h2 : t2 ∈ st) (hid : t1.id = t2.id) : t1 = t2 :=
  List.inj_on_of_nodup_map h h1 h2 hid

/-- Restricting to the owner's rows twice is restricting once. -/
theorem ownerTodos_idem (uid : Nat) (st : List Todo) :
    ownerTodos uid (ownerTodos uid st) = ownerTodos uid st := by
  unfold ownerTodos
  rw [List.filter_filter]
  exact List.filter_congr (fun t _ => by cases hb : t.user_id == uid <;> simp [hb])

/-- A filter whose predicate entails the owner test reads the same rows
from the whole table and from the owner's restriction. -/
theorem filter_ownerTodos_of_entail {uid : Nat} {st : List Todo} (p : Todo → Bool)
    (hp : ∀ t, p t = true → (t.user_id == uid) = true) :
    (ownerTodos uid st).filter p = st.filter p := by
  unfold ownerTodos
  rw [List.filter_filter]
  exact List.filter_congr (fun t _ => by
    cases hb : p t
    · simp
    · simp [hp t hb])

/-- A `first()` query whose predicate entails the owner test returns
the same row from the whole table and from the owner's restriction. -/
theorem firstNewest_ownerTodos {uid : Nat} {st : List Todo} (p : Todo → Bool)
    (hp : ∀ t, p t = true → (t.user_id == uid) = true) :
    firstNewest p (ownerTodos uid st) = firstNewest p st := by
  unfold firstNewest
  rw [filter_ownerTodos_of_entail p hp]

/-- Overwriting a row whose id belongs to the owner (with a row still
owned by the owner) does not change any other owner's rows. -/
theorem othersTodos_replaceById {uid i : Nat} {t2 : Todo} {st : List Todo}
    (h2 : (t2.user_id == uid) = true)
    (howner : ∀ t ∈ st, t.id = i → (t.user_id == uid) = true) :
    othersTodos uid (replaceById st i t2) = othersTodos uid st := by
  unfold othersTodos replaceById
  rw [List.filter_map]
  have h1 : st.filter ((fun t => !(t.user_id == uid)) ∘ fun t => if t.id == i then t2 else t)
      = st.filter (fun t => !(t.user_id == uid)) := by
    apply List.filter_congr
    intro t ht
    by_cases hti : (t.id == i) = true
    · simp only [Function.comp_apply, hti, if_true]
      rw [howner t ht (by simpa using hti), h2]
    · have hti2 : ¬ t.id = i := by simpa using hti
      simp [Function.comp_apply, hti2]
  rw [h1]
  have h3 : ∀ t ∈ st.filter (fun t => !(t.user_id == uid)),
      (if t.id == i then t2 else t) = t := by
    intro t ht
    have hmem := List.mem_filter.mp ht
    by_cases hti : (t.id == i) = true
    · have := howner t hmem.1 (by simpa using hti)
      rw [this] at hmem
      exact absurd hmem.2 (by simp)
    · simp [hti]
  calc List.map (fun t => if t.id == i then t2 else t)
          (st.filter (fun t => !(t.user_id == uid)))
      = List.map id (st.filter (fun t => !(t.user_id == uid))) :=
        List.map_congr_left h3
    _ = st.filter (fun t => !(t.user_id == uid)) := List.map_id _

/-- Overwriting a row whose id belongs to the owner commutes with
restricting to the owner's rows. -/
theorem ownerTodos_replaceById {uid i : Nat} {t2 : Todo} {st : List Todo}
    (h2 : (t2.user_id == uid) = true)
    (howner : ∀ t ∈ st, t.id = i → (t.user_id == uid) = true) :
    ownerTodos uid (replaceById st i t2) = replaceById (ownerTodos uid st) i t2 := by
  unfold ownerTodos replaceById
  rw [List.filter_map]
  have h1 : st.filter ((fun t => t.user_id == uid) ∘ fun t => if t.id == i then t2 else t)
      = st.filter (fun t => t.user_id == uid) := by
    apply List.filter_congr
    intro t ht
    by_cases hti : (t.id == i) = true
    · simp only [Function.comp_apply, hti, if_true]
      rw [howner t ht (by simpa using hti), h2]
    · have hti2 : ¬ t.id = i := by simpa using hti
      simp [Function.comp_apply, hti2]
  rw [h1]

/-- Removing a row whose id belongs to the owner does not change any
other owner's rows. -/
theorem othersTodos_removeById {uid i : Nat} {st : List Todo}
    (howner : ∀ t ∈ st, t.id = i → (t.user_id == uid) = true) :
    othersTodos uid (removeById st i) = othersTodos uid st := by
  unfold othersTodos removeById
  rw [List.filter_filter]
  apply List.filter_congr
  intro t ht
  by_cases hti : (t.id == i) = true
  · have := howner t ht (by simpa using hti)
    simp [this]
  · simp [hti]

/-- Removing a row commutes with restricting to the owner's rows. -/
theorem ownerTodos_removeById (uid i : Nat) (st : List Todo) :
    ownerTodos uid (removeById st i) = removeById (ownerTodos uid st) i := by
  unfold ownerTodos removeById
  rw [List.filter_filter, List.filter_filter]
  exact List.filter_congr (fun t _ => Bool.and_comm _ _)

/-- The reply built by the update tail does not depend on the store. -/
theorem applyUpdate_fst (msg : String) (todo : Todo) (st st' : List Todo) :
    (applyUpdate msg todo st).1 = (applyUpdate msg todo st').1 := rfl

/-- The store built by the update tail is an overwrite of the resolved
row's primary key. -/
theorem applyUpdate_snd (msg : String) (todo : Todo) (st : List Todo) :
    (applyUpdate msg todo st).2 = replaceById st todo.id (newTodoForUpdate msg todo) := rfl

/-- The update never moves a row to another owner. -/
theorem newTodoForUpdate_user_id (msg : String) (todo : Todo) :
    (newTodoForUpdate msg todo).user_id = todo.user_id := by
  unfold newTodoForUpdate
  cases updateNewTitleExtract msg <;> rfl

/-- The reply built by the complete tail does not depend on the store. -/
theorem applyComplete_fst (todo : Todo) (st st' : List Todo) :
    (applyComplete todo st).1 = (applyComplete todo st').1 := rfl

/-- The store built by the complete tail is an overwrite of the
resolved row's primary key. -/
theorem applyComplete_snd (todo : Todo) (st : List Todo) :
    (applyComplete todo st).2 = replaceById st todo.id { todo with completed := true } := rfl



/-- Left projection of a true boolean conjunction. -/
theorem bandLeft {a b : Bool} (h : (a && b) = true) : a = true := by
  cases a
  · simp at h
  · rfl

/-- Owner scoping of the update handler: other owners' rows are
untouched, and running on the owner's restriction gives the same reply
and the restriction of the same store. -/
theorem update_cmd_scoped (msg : String) (uid : Nat) (st : List Todo)
    (hnodup : nodupIds st) :
    othersTodos uid (process_update_todo_command msg uid st).2 = othersTodos uid st ∧
    process_update_todo_command msg uid (ownerTodos uid st) =
      ((process_update_todo_command msg uid st).1,
        ownerTodos uid (process_update_todo_command msg uid st).2) := by
  unfold process_update_todo_command
  cases hg : updateTargetExtract msg with
  | none => exact ⟨rfl, rfl⟩
  | some g =>
    simp only
    have hent : ∀ t : Todo,
        (t.user_id == uid && containsCI t.title (pyStrip (String.mk g))) = true →
          (t.user_id == uid) = true := fun t h => bandLeft h
    have hscope : ∀ todo : Todo, todo ∈ st → (todo.user_id == uid) = true →
        othersTodos uid (applyUpdate msg todo st).2 = othersTodos uid st ∧
        applyUpdate msg todo (ownerTodos uid st) =
          ((applyUpdate msg todo st).1, ownerTodos uid (applyUpdate msg todo st).2) := by
      intro todo htodo huser
      have howner : ∀ t ∈ st, t.id = todo.id → (t.user_id == uid) = true := by
        intro t ht hid
        rw [eq_of_mem_of_nodupIds hnodup ht htodo hid]
        exact huser
      have h2 : ((newTodoForUpdate msg todo).user_id == uid) = true := by
        rw [newTodoForUpdate_user_id]
        exact huser
      refine ⟨by rw [applyUpdate_snd]; exact othersTodos_replaceById h2 howner, ?_⟩
      refine Prod.ext_iff.mpr ⟨applyUpdate_fst msg todo (ownerTodos uid st) st, ?_⟩
      rw [applyUpdate_snd, applyUpdate_snd]
      exact (ownerTodos_replaceById h2 howner).symm
    have hfallback : ∀ todo : Todo,
        ((ownerTodos uid st).filter (fun t => strContains (strLower t.title)
          (strLower (pyStrip (String.mk g))))).head? = some todo →
        todo ∈ st ∧ (todo.user_id == uid) = true := by
      intro todo hh
      have h2' := (List.mem_filter.mp (head?_some_mem hh)).1
      unfold ownerTodos at h2'
      exact ⟨(List.mem_filter.mp h2').1, (List.mem_filter.mp h2').2⟩
    constructor
    · -- frame over the whole-store run
      cases hfn : firstNewest
          (fun t => t.user_id == uid && containsCI t.title (pyStrip (String.mk g))) st with
      | some todo =>
        obtain ⟨htodo, hp⟩ := firstNewest_some_mem hfn
        exact (hscope todo htodo (hent todo hp)).1
      | none =>
        by_cases he : (ownerTodos uid st).isEmpty = true
        · rw [if_pos he]
        · rw [if_neg he]
          cases hh : ((ownerTodos uid st).filter (fun t => strContains (strLower t.title)
              (strLower (pyStrip (String.mk g))))).head? with
          | some todo =>
            obtain ⟨htodo, huser⟩ := hfallback todo hh
            exact (hscope todo htodo huser).1
          | none => rfl
    · -- the run on the owner's restriction
      rw [firstNewest_ownerTodos _ hent]
      cases hfn : firstNewest
          (fun t => t.user_id == uid && containsCI t.title (pyStrip (String.mk g))) st with
      | some todo =>
        obtain ⟨htodo, hp⟩ := firstNewest_some_mem hfn
        exact (hscope todo htodo (hent todo hp)).2
      | none =>
        rw [ownerTodos_idem]
        by_cases he : (ownerTodos uid st).isEmpty = true
        · rw [if_pos he, if_pos he]
        · rw [if_neg he, if_neg he]
          cases hh : ((ownerTodos uid st).filter (fun t => strContains (strLower t.title)
              (strLower (pyStrip (String.mk g))))).head? with
          | some todo =>
            obtain ⟨htodo, huser⟩ := hfallback todo hh
            exact (hscope todo htodo huser).2
          | none => rfl

/-- Owner scoping of the complete handler: other owners' rows are
untouched, and running on the owner's restriction gives the same reply
and the restriction of the same store. -/
theorem complete_cmd_scoped (msg : String) (uid : Nat) (st : List Todo)
    (hnodup : nodupIds st) :
    othersTodos uid (process_complete_todo_command msg uid st).2 = othersTodos uid st ∧
    process_complete_todo_command msg uid (ownerTodos uid st) =
      ((process_complete_todo_command msg uid st).1,
        ownerTodos uid (process_complete_todo_command msg uid st).2) := by
  have hscope : ∀ todo : Todo, todo ∈ st → (todo.user_id == uid) = true →
      othersTodos uid (applyComplete todo st).2 = othersTodos uid st ∧
      applyComplete todo (ownerTodos uid st) =
        ((applyComplete todo st).1, ownerTodos uid (applyComplete todo st).2) := by
    intro todo htodo huser
    have howner : ∀ t ∈ st, t.id = todo.id → (t.user_id == uid) = true := by
      intro t ht hid
      rw [eq_of_mem_of_nodupIds hnodup ht htodo hid]
      exact huser
    have h2 : (({ todo with completed := true } : Todo).user_id == uid) = true := huser
    refine ⟨by rw [applyComplete_snd]; exact othersTodos_replaceById h2 howner, ?_⟩
    refine Prod.ext_iff.mpr ⟨applyComplete_fst todo (ownerTodos uid st) st, ?_⟩
    rw [applyComplete_snd, applyComplete_snd]
    exact (ownerTodos_replaceById h2 howner).symm
  unfold process_complete_todo_command
  cases hx : completeTargetExtract msg with
  | none =>
    constructor
    · by_cases hk : (["complete", "done", "finish"].any
          (fun w => strContains (strLower msg) w)) = true
      · rw [if_pos hk]
        cases hfn : firstNewest (fun t => t.user_id == uid && !t.completed) st with
        | some todo =>
          obtain ⟨htodo, hp⟩ := firstNewest_some_mem hfn
          exact (hscope todo htodo (bandLeft hp)).1
        | none => rfl
      · rw [if_neg hk]
    · by_cases hk : (["complete", "done", "finish"].any
          (fun w => strContains (strLower msg) w)) = true
      · rw [if_pos hk, if_pos hk,
          firstNewest_ownerTodos (fun t => t.user_id == uid && !t.completed)
            (fun t h => bandLeft h)]
        cases hfn : firstNewest (fun t => t.user_id == uid && !t.completed) st with
        | some todo =>
          obtain ⟨htodo, hp⟩ := firstNewest_some_mem hfn
          exact (hscope todo htodo (bandLeft hp)).2
        | none => rfl
      · rw [if_neg hk, if_neg hk]
  | some g =>
    simp only
    have hent : ∀ t : Todo,
        (t.user_id == uid && containsCI t.title (strLower (pyStrip (String.mk g))) &&
          !t.completed) = true → (t.user_id == uid) = true :=
      fun t h => bandLeft (bandLeft h)
    have hfallback : ∀ todo : Todo,
        ((ownerTodos uid st).filter (fun t => strContains (strLower t.title)
          (strLower (pyStrip (String.mk g))) && !t.completed)).head? = some todo →
        todo ∈ st ∧ (todo.user_id == uid) = true := by
      intro todo hh
      have h2' := (List.mem_filter.mp (head?_some_mem hh)).1
      unfold ownerTodos at h2'
      exact ⟨(List.mem_filter.mp h2').1, (List.mem_filter.mp h2').2⟩
    constructor
    · cases hfn : firstNewest (fun t => t.user_id == uid &&
          containsCI t.title (strLower (pyStrip (String.mk g))) && !t.completed) st with
      | some todo =>
        obtain ⟨htodo, hp⟩ := firstNewest_some_mem hfn
        exact (hscope todo htodo (hent todo hp)).1
      | none =>
        by_cases he : (ownerTodos uid st).isEmpty = true
        · rw [if_pos he]
        · rw [if_neg he]
          cases hh : ((ownerTodos uid st).filter (fun t => strContains (strLower t.title)
              (strLower (pyStrip (String.mk g))) && !t.completed)).head? with
          | some todo =>
            obtain ⟨htodo, huser⟩ := hfallback todo hh
            exact (hscope todo htodo huser).1
          | none =>
            split
            · next todo heq => exact Option.noConfusion heq
            · split
              · next todo heq => exact Option.noConfusion heq
              · split
                · rfl
                · rfl
    · rw [firstNewest_ownerTodos _ hent]
      cases hfn : firstNewest (fun t => t.user_id == uid &&
          containsCI t.title (strLower (pyStrip (String.mk g))) && !t.completed) st with
      | some todo =>
        obtain ⟨htodo, hp⟩ := firstNewest_some_mem hfn
        exact (hscope todo htodo (hent todo hp)).2
      | none =>
        rw [ownerTodos_idem]
        by_cases he : (ownerTodos uid st).isEmpty = true
        · rw [if_pos he, if_pos he]
        · rw [if_neg he, if_neg he]
          cases hh : ((ownerTodos uid st).filter (fun t => strContains (strLower t.title)
              (strLower (pyStrip (String.mk g))) && !t.completed)).head? with
          | some todo =>
            obtain ⟨htodo, huser⟩ := hfallback todo hh
            exact (hscope todo htodo huser).2
          | none =>
            by_cases hin : (!((ownerTodos uid st).filter
                (fun t => !t.completed)).isEmpty) = true
            · rw [if_pos hin, if_pos hin]
            · rw [if_neg hin, if_neg hin]

/-- Owner scoping of the delete handler: other owners' rows are
untouched, and running on the owner's restriction gives the same reply
and the restriction of the same store. -/
theorem delete_cmd_scoped (msg : String) (uid : Nat) (st : List Todo)
    (hnodup : nodupIds st) :
    othersTodos uid (process_delete_todo_command msg uid st).2 = othersTodos uid st ∧
    process_delete_todo_command msg uid (ownerTodos uid st) =
      ((process_delete_todo_command msg uid st).1,
        ownerTodos uid (process_delete_todo_command msg uid st).2) := by
  unfold process_delete_todo_command
  cases hg : deleteTargetExtract msg with
  | none => exact ⟨rfl, rfl⟩
  | some g =>
    simp only
    have hent : ∀ t : Todo,
        (t.user_id == uid && containsCI t.title (pyStrip (String.mk g))) = true →
          (t.user_id == uid) = true := fun t h => bandLeft h
    have howner : ∀ todo : Todo, todo ∈ st → (todo.user_id == uid) = true →
        ∀ t ∈ st, t.id = todo.id → (t.user_id == uid) = true := by
      intro todo htodo huser t ht hid
      rw [eq_of_mem_of_nodupIds hnodup ht htodo hid]
      exact huser
    have hfallback : ∀ todo : Todo,
        ((ownerTodos uid st).filter (fun t => strContains (strLower t.title)
          (strLower (pyStrip (String.mk g))))).head? = some todo →
        todo ∈ st ∧ (todo.user_id == uid) = true := by
      intro todo hh
      have h2' := (List.mem_filter.mp (head?_some_mem hh)).1
      unfold ownerTodos at h2'
      exact ⟨(List.mem_filter.mp h2').1, (List.mem_filter.mp h2').2⟩
    constructor
    · cases hfn : firstNewest
          (fun t => t.user_id == uid && containsCI t.title (pyStrip (String.mk g))) st with
      | some todo =>
        obtain ⟨htodo, hp⟩ := firstNewest_some_mem hfn
        exact othersTodos_removeById (howner todo htodo (hent todo hp))
      | none =>
        by_cases he : (ownerTodos uid st).isEmpty = true
        · rw [if_pos he]
        · rw [if_neg he]
          cases hh : ((ownerTodos uid st).filter (fun t => strContains (strLower t.title)
              (strLower (pyStrip (String.mk g))))).head? with
          | some todo =>
            obtain ⟨htodo, huser⟩ := hfallback todo hh
            exact othersTodos_removeById (howner todo htodo huser)
          | none => rfl
    · rw [firstNewest_ownerTodos _ hent]
      cases hfn : firstNewest
          (fun t => t.user_id == uid && containsCI t.title (pyStrip (String.mk g))) st with
      | some todo =>
        exact Prod.ext_iff.mpr ⟨rfl, (ownerTodos_removeById uid todo.id st).symm⟩
      | none =>
        rw [ownerTodos_idem]
        by_cases he : (ownerTodos uid st).isEmpty = true
        · rw [if_pos he, if_pos he]
        · rw [if_neg he, if_neg he]
          cases hh : ((ownerTodos uid st).filter (fun t => strContains (strLower t.title)
              (strLower (pyStrip (String.mk g))))).head? with
          | some todo =>
            exact Prod.ext_iff.mpr ⟨rfl, (ownerTodos_removeById uid todo.id st).symm⟩
          | none => rfl

/-- Owner scoping of the list handler: it writes nothing, and its reply
is computed from the owner's rows alone. -/
theorem list_cmd_scoped (msg : String) (uid : Nat) (st : List Todo) :
    othersTodos uid (process_list_todos_command msg uid st).2 = othersTodos uid st ∧
    process_list_todos_command msg uid (ownerTodos uid st) =
      ((process_list_todos_command msg uid st).1,
        ownerTodos uid (process_list_todos_command msg uid st).2) := by
  constructor
  · unfold process_list_todos_command
    cases hl : sortNewestFirst (ownerTodos uid st) with
    | nil => rfl
    | cons a l => rfl
  · unfold process_list_todos_command
    rw [ownerTodos_idem]
    by_cases he : (sortNewestFirst (ownerTodos uid st)).isEmpty = true
    · rw [if_pos he, if_pos he]
    · rw [if_neg he, if_neg he]

/-- C9: every handler reached through the keyword chain reads and
writes only the invoking owner's todos.  With unique primary keys, for
every message and store (i) the rows of every other owner are unchanged
by the run, and (ii) running on the store restricted to the owner's
rows yields the same reply and the restriction of the same final store
— so other owners' rows never influence the owner's reply. -/
theorem c9_owner_scoping (msg : String) (uid : Nat) (st : List Todo)
    (hnodup : nodupIds st) :
    othersTodos uid (process_natural_language_command msg uid st).2 = othersTodos uid st ∧
    process_natural_language_command msg uid (ownerTodos uid st) =
      ((process_natural_language_command msg uid st).1,
        ownerTodos uid (process_natural_language_command msg uid st).2) := by
  unfold process_natural_language_command
  cases classifyIntent msg with
  | create => exact ⟨rfl, rfl⟩
  | update => exact update_cmd_scoped msg uid st hnodup
  | complete => exact complete_cmd_scoped msg uid st hnodup
  | delete => exact delete_cmd_scoped msg uid st hnodup
  | list => exact list_cmd_scoped msg uid st
  | unknown => exact ⟨rfl, rfl⟩

/-- Witness for C9: owner 1 deletes "milk" from a store that also holds
owner 2's identically titled todo; owner 2's row survives and owner 1's
reply is the same as on owner 1's rows alone. -/
theorem c9_owner_scoping_witness :
    nodupIds
      [{ id := 1, title := "milk", description := "", completed := false
       , user_id := 1, created_at := 1 },
       { id := 2, title := "milk", description := "", completed := false
       , user_id := 2, created_at := 2 }] ∧
    (othersTodos 1 (process_natural_language_command "delete milk" 1
        [{ id := 1, title := "milk", description := "", completed := false
         , user_id := 1, created_at := 1 },
         { id := 2, title := "milk", description := "", completed := false
         , user_id := 2, created_at := 2 }]).2 =
      othersTodos 1
        [{ id := 1, title := "milk", description := "", completed := false
         , user_id := 1, created_at := 1 },
         { id := 2, title := "milk", description := "", completed := false
         , user_id := 2, created_at := 2 }] ∧
     process_natural_language_command "delete milk" 1
        (ownerTodos 1
          [{ id := 1, title := "milk", description := "", completed := false
           , user_id := 1, created_at := 1 },
           { id := 2, title := "milk", description := "", completed := false
           , user_id := 2, created_at := 2 }]) =
      ((process_natural_language_command "delete milk" 1
          [{ id := 1, title := "milk", description := "", completed := false
           , user_id := 1, created_at := 1 },
           { id := 2, title := "milk", description := "", completed := false
           , user_id := 2, created_at := 2 }]).1,
        ownerTodos 1 (process_natural_language_command "delete milk" 1
          [{ id := 1, title := "milk", description := "", completed := false
           , user_id := 1, created_at := 1 },
           { id := 2, title := "milk", description := "", completed := false
           , user_id := 2, created_at := 2 }]).2)) :=
  ⟨by unfold nodupIds; decide, c9_owner_scoping "delete milk" 1 _ (by unfold nodupIds; decide)⟩
